import Mathlib

/-!
# Verification of the nexus dialogue-engine core

Shallow embedding in Lean 4 of the state-management and orchestration layer
of the nexus server (`crates/nexus-server/src/river` and
`crates/nexus-server/src/perspective`), together with proofs of the spec's
claims about it.

Modelling conventions:
* `f64` values (confidences, severities, metric scalars) are modelled as `ℚ`;
  the source performs only division, addition and `min`, which are exact here.
* `Uuid` is modelled as `Nat`, with `Uuid::nil()` as `0`.
* Timestamps (`chrono::DateTime<Utc>`) are modelled as `Int` (an instant);
  `Utc::now()` at a given point of a run is passed in explicitly.
* Every outbound effect (oracle call, store read/write) is modelled by an
  explicit outcome value handed to the embedded function, so the functions
  are pure and executable; `Except String` models `anyhow::Result`.
* Concurrency (`tokio::try_join!`) is modelled denotationally by its
  fail-fast sequential semantics over the already-resolved branch outcomes.
-/

namespace Nexus

/-- Embeds `Uuid`, modelled as a natural number; `Uuid::nil()` is `0`. -/
abbrev Uuid := Nat

/-- Embeds `Uuid::nil()`. -/
def Uuid.nil : Uuid := 0

/-- Embeds `nexus_common::types::Belief`. -/
structure Belief where
  id : Uuid
  user_id : Uuid
  claim : String
  confidence : ℚ
  source_message_id : Uuid
  created_at : Int
  updated_at : Int
deriving Repr, DecidableEq

/-- Embeds `beliefs::ExtractedClaim` (output of belief extraction). -/
structure ExtractedClaim where
  claim : String
  confidence : ℚ
  is_explicit : Bool
deriving Repr, DecidableEq

/-- Embeds `beliefs::ContradictionEntry` (one entry of the oracle's structured
contradiction response). -/
structure ContradictionEntry where
  existing_claim : String
  explanation : String
  severity : ℚ
deriving Repr, DecidableEq

/-- Embeds `nexus_common::types::Contradiction`. -/
structure Contradiction where
  belief_a : Belief
  belief_b : Belief
  explanation : String
  severity : ℚ
deriving Repr, DecidableEq

/-- Embeds `episodic::MemoryResult` (projection returned by `recall_similar`). -/
structure MemoryResult where
  content : String
  role : String
  timestamp : String
  score : ℚ
deriving Repr, DecidableEq

/-- Outcome of one `OllamaClient::generate_json::<T>` call, as seen by a
caller: the HTTP request can fail (`unreachable` covers network errors,
HTTP error statuses and envelope-parse failures, which the source folds
into one `anyhow::Error`), the model's text can fail to parse as `T`
(`unparseable`), or a value of `T` is produced (`parsed`). -/
inductive OracleJson (α : Type) where
  | unreachable
  | unparseable
  | parsed (value : α)
deriving Repr, DecidableEq

/-- The `anyhow::Result<T>` a caller of `generate_json` observes. -/
def OracleJson.toExcept : OracleJson α → Except String α
  | .unreachable => .error "Failed to reach Ollama"
  | .unparseable => .error "Failed to parse JSON from LLM response"
  | .parsed v => .ok v

/-- Embeds `r.unwrap_or_default()` / `r.unwrap_or_else(|_| d)` on a `Result`. -/
def orDefault (r : Except String α) (d : α) : α :=
  match r with
  | .error _ => d
  | .ok v => v

/-- Whether an `Except` is an error. -/
def isError : Except String α → Bool
  | .error _ => true
  | .ok _ => false

/-! ## Consciousness metric calculator (`river/consciousness.rs`) -/

/-- Embeds `nexus_common::types::ConsciousnessState` (the four scalars; user,
session and timestamp omitted from the pure core, as the claims only
concern the scalars). -/
structure MetricScalars where
  epistemic_humility : ℚ
  belief_volatility : ℚ
  contradiction_awareness : ℚ
  depth_of_inquiry : ℚ
deriving Repr, DecidableEq

/-- The pure computation inside `consciousness::compute_metrics`
(lines 123–151): the four bounded scalars from the four counts. -/
def computeMetricsCore (beliefs_count contradictions_count questions_asked
    beliefs_revised : Nat) : MetricScalars :=
  { epistemic_humility :=
      if beliefs_count > 0 then
        min (((questions_asked : ℚ) + beliefs_revised) / beliefs_count) 1
      else (1 : ℚ) / 2
    belief_volatility :=
      if beliefs_count > 0 then
        min ((beliefs_revised : ℚ) / beliefs_count) 1
      else 0
    contradiction_awareness :=
      if beliefs_count > 1 then
        min ((contradictions_count : ℚ) / ((beliefs_count : ℚ) - 1)) 1
      else 0
    depth_of_inquiry := min ((questions_asked : ℚ) / 10) 1 }

/-- Embeds `consciousness::log_metrics`: builds an InfluxDB point and writes it;
the write outcome is the only effect, a failure is propagated
(`.context("Failed to write consciousness metrics to InfluxDB")?`). -/
def log_metrics (influxWriteFails : Bool) : Except String Unit :=
  if influxWriteFails then
    .error "Failed to write consciousness metrics to InfluxDB"
  else .ok ()

/-- Embeds `consciousness::compute_metrics` (the full function): computes the
scalars, then `log_metrics(state, &metrics).await?` — a persistence
failure is propagated with `?` before the snapshot is returned. -/
def compute_metrics (influxWriteFails : Bool) (beliefs_count
    contradictions_count questions_asked beliefs_revised : Nat) :
    Except String MetricScalars :=
  let metrics := computeMetricsCore beliefs_count contradictions_count
    questions_asked beliefs_revised
  match log_metrics influxWriteFails with
  | .error e => .error e
  | .ok _ => .ok metrics

/-! ## Belief extraction & contradiction detection (`river/beliefs.rs`) -/

/-- Embeds `beliefs::extract_beliefs`: one `generate_json::<ClaimsResponse>` call
whose failure (network or parse) is propagated with
`.context("Failed to extract beliefs")?`; on success the parsed claim list
is returned. -/
def extract_beliefs (oracle : OracleJson (List ExtractedClaim)) :
    Except String (List ExtractedClaim) :=
  match oracle.toExcept with
  | .error e => .error ("Failed to extract beliefs: " ++ e)
  | .ok claims => .ok claims

/-- Embeds `beliefs::store_belief`: a Neo4j `CREATE`; on write success the freshly
built `Belief` (new id, the claim's text and confidence, the source message
id, `now` for both timestamps) is returned, on failure the error is
propagated. -/
def store_belief (writeFails : Bool) (user_id : Uuid) (c : ExtractedClaim)
    (source_message_id : Uuid) (belief_id : Uuid) (now : Int) :
    Except String Belief :=
  if writeFails then .error "Failed to store belief in Neo4j"
  else .ok { id := belief_id, user_id, claim := c.claim,
             confidence := c.confidence, source_message_id,
             created_at := now, updated_at := now }

/-- One row returned by the Neo4j query in `beliefs::get_user_beliefs`.
Each field is the result of `row.get(..)` followed by parsing: `none`
models a missing field or one whose string failed to parse (uuid parse
failure for `id`/`source_message_id`, RFC 3339 parse failure for the
timestamps, missing value for `claim`/`confidence`). -/
structure BeliefRow where
  id : Option Uuid
  claim : Option String
  confidence : Option ℚ
  source_message_id : Option Uuid
  created_at : Option Int
  updated_at : Option Int
deriving Repr, DecidableEq

/-- The per-row repair in `get_user_beliefs` (lines 112–131): every
missing/unparseable field is substituted with a default — `Uuid::nil()`
for ids, `""` for the claim, `0.5` for the confidence, `Utc::now()` for
the timestamps — and never an error. -/
def rowToBelief (user_id : Uuid) (now : Int) (r : BeliefRow) : Belief :=
  { id := r.id.getD Uuid.nil
    user_id
    claim := r.claim.getD ""
    confidence := r.confidence.getD ((1 : ℚ) / 2)
    source_message_id := r.source_message_id.getD Uuid.nil
    created_at := r.created_at.getD now
    updated_at := r.updated_at.getD now }

/-- Embeds `beliefs::get_user_beliefs`: the query itself can fail (propagated);
each returned row is repaired into a `Belief` via `rowToBelief`. -/
def get_user_beliefs (queryResult : Except String (List BeliefRow))
    (user_id : Uuid) (now : Int) : Except String (List Belief) :=
  match queryResult with
  | .error e => .error e
  | .ok rows => .ok (rows.map (rowToBelief user_id now))

/-- The placeholder `Belief` that `detect_contradictions` builds for the
new (not yet stored) claim as `belief_b` (lines 173–181): nil ids,
confidence `0.5`, `now` timestamps. -/
def mkNewClaimBelief (user_id : Uuid) (new_claim : String) (now : Int) :
    Belief :=
  { id := Uuid.nil, user_id, claim := new_claim, confidence := (1 : ℚ) / 2,
    source_message_id := Uuid.nil, created_at := now, updated_at := now }

/-- The resolution loop of `detect_contradictions` (lines 168–186): each
oracle entry is kept only if its `existing_claim` text is literally equal
to some stored belief's claim (`existing.iter().find(...)`, first match);
the match becomes `belief_a`, the new claim's placeholder `belief_b`. -/
def resolveContradictions (existing : List Belief)
    (entries : List ContradictionEntry) (user_id : Uuid)
    (new_claim : String) (now : Int) : List Contradiction :=
  entries.filterMap fun c =>
    (existing.find? fun b => b.claim == c.existing_claim).map fun eb =>
      { belief_a := eb, belief_b := mkNewClaimBelief user_id new_claim now,
        explanation := c.explanation, severity := c.severity }

/-- Embeds `beliefs::detect_contradictions`. `readResult` is the outcome of the
internal `get_user_beliefs` call (its failure is propagated with `?`);
`oracle` the outcome of the `generate_json::<ContradictionResponse>` call,
whose failure degrades to no contradictions (`unwrap_or_else`). The
returned `Bool` records whether the oracle was consulted: with no stored
beliefs the function short-circuits to the empty list before any oracle
call. -/
def detect_contradictions (readResult : Except String (List Belief))
    (oracle : OracleJson (List ContradictionEntry)) (user_id : Uuid)
    (new_claim : String) (now : Int) :
    Except String (List Contradiction) × Bool :=
  match readResult with
  | .error e => (.error e, false)
  | .ok existing =>
    if existing.isEmpty then (.ok [], false)
    else
      let entries := orDefault oracle.toExcept []
      (.ok (resolveContradictions existing entries user_id new_claim now),
       true)

/-- Embeds `beliefs::link_contradiction`: a Neo4j `MATCH`+`CREATE`; the write
outcome is propagated. -/
def link_contradiction (writeFails : Bool) (belief_a_id belief_b_id : Uuid) :
    Except String Unit :=
  if writeFails then .error "Failed to create contradiction link"
  else .ok ()

/-! ## Perspective analysis (`perspective/*.rs`)

The four layer analyzers each issue one `generate_json` call and fold its
failure into an all-empty default (`unwrap_or_else`). The syntactic layer
additionally computes voice and nominalisation findings locally with
regexes over the text; those are deterministic, failure-free pure text
computations and are represented here by their results (`voice`, `noms`),
handed to the layer alongside the oracle outcome. The source's private
response structs are field-for-field identical to the public finding types
and mapped one-to-one, so the finding types are reused for the oracle
responses. -/

/-- Embeds `nexus_common::types::VoiceType`. -/
inductive VoiceType where
  | active
  | passive
deriving Repr, DecidableEq

/-- Embeds `nexus_common::types::VoiceInstance`. -/
structure VoiceInstance where
  sentence : String
  voice : VoiceType
  significance : String
deriving Repr, DecidableEq

/-- Embeds `nexus_common::types::Nominalisation`. -/
structure Nominalisation where
  original : String
  verb_form : String
  effect : String
deriving Repr, DecidableEq

/-- Embeds `nexus_common::types::SentenceComplexity`. -/
structure SentenceComplexity where
  sentence : String
  score : ℚ
  clause_count : Nat
  note : String
deriving Repr, DecidableEq

/-- Embeds `nexus_common::types::TransitivityInstance`. -/
structure TransitivityInstance where
  sentence : String
  actor : String
  process : String
  affected : String
  analysis : String
deriving Repr, DecidableEq

/-- Embeds `nexus_common::types::SyntacticAnalysis`. -/
structure SyntacticAnalysis where
  voice_analysis : List VoiceInstance
  sentence_complexity : List SentenceComplexity
  nominalisations : List Nominalisation
  transitivity : List TransitivityInstance
deriving Repr, DecidableEq

/-- Embeds `nexus_common::types::Presupposition`. -/
structure Presupposition where
  trigger : String
  presupposed_content : String
  significance : String
deriving Repr, DecidableEq

/-- Embeds `nexus_common::types::Implicature`. -/
structure Implicature where
  statement : String
  implied_meaning : String
  mechanism : String
deriving Repr, DecidableEq

/-- Embeds `nexus_common::types::PowerHierarchy`. -/
structure PowerHierarchy where
  dominant : String
  subordinate : String
  linguistic_markers : List String
  analysis : String
deriving Repr, DecidableEq

/-- Embeds `nexus_common::types::LexicalField`. -/
structure LexicalField where
  field_name : String
  terms : List String
  connotation : String
deriving Repr, DecidableEq

/-- Embeds `nexus_common::types::SemanticAnalysis`. -/
structure SemanticAnalysis where
  presuppositions : List Presupposition
  implicatures : List Implicature
  power_hierarchies : List PowerHierarchy
  lexical_fields : List LexicalField
deriving Repr, DecidableEq

/-- Embeds `nexus_common::types::FramingInstance`. -/
structure FramingInstance where
  frame_name : String
  evidence : String
  effect : String
deriving Repr, DecidableEq

/-- Embeds `nexus_common::types::StrategicOmission`. -/
structure StrategicOmission where
  what_is_missing : String
  why_it_matters : String
  who_benefits : String
deriving Repr, DecidableEq

/-- Embeds `nexus_common::types::CollocationPattern`. -/
structure CollocationPattern where
  pattern : String
  frequency_note : String
  ideological_loading : String
deriving Repr, DecidableEq

/-- Embeds `nexus_common::types::IntertextualityMarker`. -/
structure IntertextualityMarker where
  reference : String
  source_discourse : String
  function : String
deriving Repr, DecidableEq

/-- Embeds `nexus_common::types::DiscourseAnalysis`. -/
structure DiscourseAnalysis where
  framing : List FramingInstance
  strategic_omissions : List StrategicOmission
  collocations : List CollocationPattern
  intertextuality : List IntertextualityMarker
deriving Repr, DecidableEq

/-- Embeds `nexus_common::types::NaturalisedClaim`. -/
structure NaturalisedClaim where
  claim : String
  how_naturalised : String
  counter_evidence : String
deriving Repr, DecidableEq

/-- Embeds `nexus_common::types::BeneficiaryAnalysis`. -/
structure BeneficiaryAnalysis where
  who_benefits : String
  how : String
  who_is_disadvantaged : String
deriving Repr, DecidableEq

/-- Embeds `nexus_common::types::HiddenContext`. -/
structure HiddenContext where
  context : String
  relevance : String
  why_hidden : String
deriving Repr, DecidableEq

/-- Embeds `nexus_common::types::AlternativeFraming`. -/
structure AlternativeFraming where
  original_frame : String
  alternative : String
  same_facts_used : String
deriving Repr, DecidableEq

/-- Embeds `nexus_common::types::CriticalSynthesis`. -/
structure CriticalSynthesis where
  naturalised_claims : List NaturalisedClaim
  beneficiary_analysis : List BeneficiaryAnalysis
  hidden_contexts : List HiddenContext
  alternative_framings : List AlternativeFraming
deriving Repr, DecidableEq

/-- Embeds `nexus_common::types::AnalysisResult`. -/
structure AnalysisResult where
  id : Uuid
  input_text : String
  syntactic : SyntacticAnalysis
  semantic : SemanticAnalysis
  discourse : DiscourseAnalysis
  critical_synthesis : CriticalSynthesis
  created_at : Int
deriving Repr, DecidableEq

/-! ## Analysis cache (`perspective/cache.rs`) -/

/-- Outcome of the Redis `GET` plus deserialization in
`cache::get_cached`: the store can be unreachable (the source folds this
to `None` with `unwrap_or(None)`), the key can be absent, the stored
payload can fail to deserialize, or a cached `AnalysisResult` is found. -/
inductive CacheReadOutcome where
  | unreachable
  | missing
  | malformed
  | hit (result : AnalysisResult)
deriving Repr, DecidableEq

/-- Embeds `cache::get_cached` (lines 20–39): a failed `GET` becomes `None`
(miss); an absent key is `None`; a present payload is deserialized, and a
deserialization failure is propagated as an error
(`.context("Failed to deserialize cached analysis")?`). -/
def get_cached (o : CacheReadOutcome) : Except String (Option AnalysisResult) :=
  match o with
  | .unreachable => .ok none
  | .missing => .ok none
  | .malformed => .error "Failed to deserialize cached analysis"
  | .hit r => .ok (some r)

/-! ## Layer analyzers and engine (`perspective/{syntactic,semantic,discourse,synthesis,engine}.rs`) -/

/-- The oracle response of the syntactic layer
(`CombinedSyntacticResponse`): complexity entries and transitivity
processes. -/
structure CombinedSyntacticResponse where
  sentences : List SentenceComplexity
  processes : List TransitivityInstance
deriving Repr, DecidableEq

/-- Embeds `syntactic::analyze`: voice and nominalisation findings are computed
locally (represented by `voice` and `noms`); the single oracle call's
failure degrades to empty complexity/transitivity lists
(`unwrap_or_else`). The function never returns an error. -/
def syntactic_analyze (voice : List VoiceInstance)
    (noms : List Nominalisation)
    (oracle : OracleJson CombinedSyntacticResponse) :
    Except String SyntacticAnalysis :=
  let r := orDefault oracle.toExcept ⟨[], []⟩
  .ok { voice_analysis := voice, sentence_complexity := r.sentences,
        nominalisations := noms, transitivity := r.processes }

/-- Embeds `semantic::analyze`: one oracle call, failure degrades to the all-empty
`CombinedSemanticResponse::default()`; never an error. -/
def semantic_analyze (oracle : OracleJson SemanticAnalysis) :
    Except String SemanticAnalysis :=
  .ok (orDefault oracle.toExcept ⟨[], [], [], []⟩)

/-- Embeds `discourse::analyze`: one oracle call, failure degrades to the
all-empty `CombinedDiscourseResponse::default()`; never an error. -/
def discourse_analyze (oracle : OracleJson DiscourseAnalysis) :
    Except String DiscourseAnalysis :=
  .ok (orDefault oracle.toExcept ⟨[], [], [], []⟩)

/-- Embeds `synthesis::analyze`: one oracle call, failure degrades to the
all-empty `CombinedSynthesisResponse::default()`; never an error. -/
def synthesis_analyze (oracle : OracleJson CriticalSynthesis) :
    Except String CriticalSynthesis :=
  .ok (orDefault oracle.toExcept ⟨[], [], [], []⟩)

/-- All the inputs of one `analyze_text` run: the cache read outcome, the
local regex findings, the four layer oracle outcomes, the two best-effort
write outcomes, and the fresh id / timestamp drawn during the run. -/
structure AnalyzeEnv where
  cacheRead : CacheReadOutcome
  voice : List VoiceInstance
  noms : List Nominalisation
  synOracle : OracleJson CombinedSyntacticResponse
  semOracle : OracleJson SemanticAnalysis
  disOracle : OracleJson DiscourseAnalysis
  synthOracle : OracleJson CriticalSynthesis
  cacheWriteFails : Bool
  pgWriteFails : Bool
  freshId : Uuid
  now : Int

/-- Fail-fast join of four fallible branches: the denotational semantics
of the `tokio::try_join!` in `engine::analyze_text` over already-resolved
branch outcomes. -/
def tryJoin4 (a : Except String α) (b : Except String β)
    (c : Except String γ) (d : Except String δ) :
    Except String (α × β × γ × δ) := do
  let x ← a
  let y ← b
  let z ← c
  let w ← d
  return (x, y, z, w)

/-- The fan-out part of `engine::analyze_text` (lines 20–25): the four
layer analyzers joined with `try_join!`. -/
def runLayers (env : AnalyzeEnv) :
    Except String (SyntacticAnalysis × SemanticAnalysis ×
      DiscourseAnalysis × CriticalSynthesis) :=
  tryJoin4 (syntactic_analyze env.voice env.noms env.synOracle)
    (semantic_analyze env.semOracle)
    (discourse_analyze env.disOracle)
    (synthesis_analyze env.synthOracle)

/-- Modelled from the spec ("concurrent joins use collect all, substitute
defaults for failures semantics, not fail fast"): the collect-all join of
the four layers, where each branch independently contributes its parsed
value or its documented empty default. Compared against `runLayers` for
the refinement claim about join semantics. -/
def runLayersCollectAll (env : AnalyzeEnv) :
    Except String (SyntacticAnalysis × SemanticAnalysis ×
      DiscourseAnalysis × CriticalSynthesis) :=
  let synR := orDefault env.synOracle.toExcept ⟨[], []⟩
  .ok ({ voice_analysis := env.voice, sentence_complexity := synR.sentences,
         nominalisations := env.noms, transitivity := synR.processes },
       orDefault env.semOracle.toExcept ⟨[], [], [], []⟩,
       orDefault env.disOracle.toExcept ⟨[], [], [], []⟩,
       orDefault env.synthOracle.toExcept ⟨[], [], [], []⟩)

/-- Embeds `engine::analyze_text`: a cache probe whose `Ok(Some(..))` result is
returned directly and whose error or miss falls through
(`if let Ok(Some(cached))`); then the four-layer `try_join!`; then a
best-effort cache write and a best-effort PostgreSQL insert, both with
their results discarded (`let _ =`). -/
def analyze_text (env : AnalyzeEnv) (text : String) :
    Except String AnalysisResult :=
  match get_cached env.cacheRead with
  | .ok (some cached) => .ok cached
  | _ =>
    match runLayers env with
    | .error e => .error e
    | .ok (sy, se, di, cs) =>
      .ok { id := env.freshId, input_text := text, syntactic := sy,
            semantic := se, discourse := di, critical_synthesis := cs,
            created_at := env.now }

/-! ## Dialogue orchestrator, conversation mode (`river/dialogue.rs`)

`process_message` is embedded as a pure function of a `ConvEnv` — the
resolved outcomes of every external interaction of the turn — returning
the turn's `anyhow::Result<String>` together with the trace of outbound
calls in the order the source awaits them. -/

/-- One outbound call of a turn, in source order. -/
inductive Event where
  | recallCall
  | extractCall
  | detectCall (claim : String)
  | storeBeliefCall (beliefId : Uuid) (claim : String) (ok : Bool)
  | linkCall (aId bId : Uuid)
  | storeMemoryCall (role : String)
  | chatCall
  | metricsCall (beliefsCount contradictionsCount questionsAsked
      beliefsRevised : Nat)
deriving Repr, DecidableEq

/-- Resolved outcomes of the external interactions of one
conversation-mode turn. `preBeliefs` is the content of the user's belief
graph at turn start (as `get_user_beliefs` would deliver it);
`detectReadFails` / `finalReadFails` tell whether the Neo4j belief reads
inside the detection phase resp. at step 6 fail; `storeBeliefFails i` /
`linkFails i` whether the i-th belief write / link write fails;
`freshBeliefIds i` is the `Uuid::new_v4()` drawn for the i-th stored
belief. -/
structure ConvEnv where
  preBeliefs : List Belief
  recallOutcome : Except String (List MemoryResult)
  extractOracle : OracleJson (List ExtractedClaim)
  detectReadFails : Bool
  detectOracle : String → OracleJson (List ContradictionEntry)
  storeBeliefFails : Nat → Bool
  linkFails : Nat → Bool
  memStoreUserFails : Bool
  finalReadFails : Bool
  chat : Except String String
  memStoreAsstFails : Bool
  metricsLogFails : Bool
  freshBeliefIds : Nat → Uuid
  messageId : Uuid
  now : Int

/-- Step 2 of `process_message`:
`beliefs::extract_beliefs(..).await.unwrap_or_default()`. -/
def extractedOf (env : ConvEnv) : List ExtractedClaim :=
  orDefault (extract_beliefs env.extractOracle) []

/-- The belief read performed inside `detect_contradictions` during the
detection phase: it runs before any of this turn's writes, so on success
it sees exactly `preBeliefs`. -/
def detectRead (env : ConvEnv) : Except String (List Belief) :=
  if env.detectReadFails then .error "Failed to query beliefs from Neo4j"
  else .ok env.preBeliefs

/-- Step 3 of `process_message`: one `detect_contradictions` call per
extracted claim, each `unwrap_or_default()`, results flattened
(`all_contradictions`). -/
def contradictionsOf (env : ConvEnv) (user_id : Uuid) : List Contradiction :=
  (extractedOf env).flatMap fun claim =>
    orDefault (detect_contradictions (detectRead env)
      (env.detectOracle claim.claim) user_id claim.claim env.now).1 []

/-- Step 4 of `process_message`: one `store_belief` attempt per extracted
claim (indexed in order); each attempt's outcome. -/
def storeAttempts (env : ConvEnv) (user_id : Uuid) :
    List (Except String Belief) :=
  (extractedOf env).enum.map fun p =>
    store_belief (env.storeBeliefFails p.1) user_id p.2 env.messageId
      (env.freshBeliefIds p.1) env.now

/-- The successfully stored beliefs of the turn (`stored_beliefs`): the
`Ok` results of the store attempts, failures dropped with a warning. -/
def storedOf (env : ConvEnv) (user_id : Uuid) : List Belief :=
  (storeAttempts env user_id).filterMap fun r =>
    match r with
    | .ok b => some b
    | .error _ => none

/-- The contradiction-link phase of `process_message` (lines 79–93): for
each detected contradiction whose new-claim text matches a belief just
stored, one `link_contradiction` call (result discarded with `let _ =`).
Returned as the link events it emits. -/
def linkEventsOf (env : ConvEnv) (user_id : Uuid) : List Event :=
  (contradictionsOf env user_id).filterMap fun contra =>
    ((storedOf env user_id).find? fun b =>
        b.claim == contra.belief_b.claim).map fun newB =>
      .linkCall contra.belief_a.id newB.id

/-- Step 6 of `process_message`: `get_user_beliefs` again, *after* this
turn's belief writes, so on success it sees the stored beliefs (newest
first) in front of `preBeliefs`; `unwrap_or_default()` on failure. -/
def existingBeliefsOf (env : ConvEnv) (user_id : Uuid) : List Belief :=
  if env.finalReadFails then []
  else (storedOf env user_id).reverse ++ env.preBeliefs

/-- The trace of outbound calls up to and including the reply-producing
chat call, in source order: recall, extraction, one detection per claim,
one belief write per claim, the link writes, the user-message memory
write, the step-6 belief read is part of `existingBeliefsOf`, then chat. -/
def convTracePrefix (env : ConvEnv) (user_id : Uuid) : List Event :=
  [.recallCall, .extractCall]
    ++ ((extractedOf env).map fun c => .detectCall c.claim)
    ++ ((extractedOf env).enum.map fun p =>
          Event.storeBeliefCall (env.freshBeliefIds p.1) p.2.claim
            (!env.storeBeliefFails p.1))
    ++ linkEventsOf env user_id
    ++ [.storeMemoryCall "user", .chatCall]

/-- Embeds `dialogue::process_message`: the whole conversation-mode turn. The
single `?` of the function is on the chat call ("Failed to generate
Socratic response"); every other failure is absorbed
(`unwrap_or_default` / `let _ =`). After a successful chat the assistant
reply is stored as memory (best-effort) and `compute_metrics` is invoked
with `existing_beliefs.len() + stored_beliefs.len()`,
`all_contradictions.len()`, `1`, `0`, its result discarded. -/
def process_message (env : ConvEnv) (user_id : Uuid) :
    Except String String × List Event :=
  match env.chat with
  | .error _ =>
    (.error "Failed to generate Socratic response", convTracePrefix env user_id)
  | .ok response =>
    (.ok response,
     convTracePrefix env user_id
       ++ [.storeMemoryCall "assistant",
           .metricsCall
             ((existingBeliefsOf env user_id).length
               + (storedOf env user_id).length)
             (contradictionsOf env user_id).length 1 0])

/-! ## Dialogue orchestrator, integrated mode (`river/integrated.rs`) -/

/-- Resolved outcomes of the external interactions of one integrated-mode
turn: the analysis sub-run's inputs plus the dialogue-side outcomes,
mirroring `ConvEnv`. -/
structure IntEnv where
  analyzeEnv : AnalyzeEnv
  recallOutcome : Except String (List MemoryResult)
  extractOracle : OracleJson (List ExtractedClaim)
  preBeliefs : List Belief
  detectReadFails : Bool
  detectOracle : String → OracleJson (List ContradictionEntry)
  storeBeliefFails : Nat → Bool
  memStoreUserFails : Bool
  chat : Except String String
  memStoreAsstFails : Bool
  finalReadFails : Bool
  metricsLogFails : Bool
  freshBeliefIds : Nat → Uuid
  messageId : Uuid
  now : Int

/-- The opening `tokio::try_join!` of `process_integrated` (lines 28–40):
three branches — the four-layer analysis, memory recall with
`.or_else(|_| Ok(Vec::new()))`, and belief extraction with
`.or_else(|_| Ok(Vec::new()))` — joined fail-fast. -/
def integratedJoin (env : IntEnv) (message : String) :
    Except String (AnalysisResult × List MemoryResult ×
      List ExtractedClaim) := do
  let a ← analyze_text env.analyzeEnv message
  let m ← (Except.ok (orDefault env.recallOutcome []) :
    Except String (List MemoryResult))
  let e ← (Except.ok (orDefault (extract_beliefs env.extractOracle) []) :
    Except String (List ExtractedClaim))
  return (a, m, e)

/-- The belief read inside the detection phase of `process_integrated`:
before this turn's writes, so it sees `preBeliefs` on success. -/
def intDetectRead (env : IntEnv) : Except String (List Belief) :=
  if env.detectReadFails then .error "Failed to query beliefs from Neo4j"
  else .ok env.preBeliefs

/-- The detection phase of `process_integrated` (lines 43–49): one
`detect_contradictions` call per extracted claim, each
`unwrap_or_default()`, flattened. -/
def intContradictionsOf (env : IntEnv) (user_id : Uuid)
    (extracted : List ExtractedClaim) : List Contradiction :=
  extracted.flatMap fun claim =>
    orDefault (detect_contradictions (intDetectRead env)
      (env.detectOracle claim.claim) user_id claim.claim env.now).1 []

/-- Embeds `integrated::process_integrated`: the whole integrated-mode turn. The
`?` on the opening `try_join!` and the
`.context("Failed to generate integrated response")?` on the chat call
are the only error exits; belief writes, memory writes and the final
metrics call are best-effort with results discarded (`let _ =`). -/
def process_integrated (env : IntEnv) (user_id : Uuid) (message : String) :
    Except String (String × AnalysisResult) :=
  match integratedJoin env message with
  | .error e => .error e
  | .ok (analysis, _memories, extracted) =>
    let _contradictions := intContradictionsOf env user_id extracted
    match env.chat with
    | .error _ => .error "Failed to generate integrated response"
    | .ok response => .ok (response, analysis)

/-! ## Auxiliary definitions for the theorems -/

/-- The value `analyze_text` delivers: the cached result on a cache hit,
otherwise the assembly of the four layer results with each failed layer's
oracle-derived findings replaced by the empty default. -/
def analyzeValueOf (env : AnalyzeEnv) (text : String) : AnalysisResult :=
  match get_cached env.cacheRead with
  | .ok (some cached) => cached
  | _ =>
    let synR := orDefault env.synOracle.toExcept ⟨[], []⟩
    { id := env.freshId, input_text := text,
      syntactic := { voice_analysis := env.voice,
                     sentence_complexity := synR.sentences,
                     nominalisations := env.noms,
                     transitivity := synR.processes },
      semantic := orDefault env.semOracle.toExcept ⟨[], [], [], []⟩,
      discourse := orDefault env.disOracle.toExcept ⟨[], [], [], []⟩,
      critical_synthesis := orDefault env.synthOracle.toExcept ⟨[], [], [], []⟩,
      created_at := env.now }

/-- A sample extracted claim, for concrete runs. -/
def sampleClaim : ExtractedClaim :=
  { claim := "Cats are always smarter than dogs", confidence := 9/10,
    is_explicit := true }

/-- A sample stored belief, for concrete runs. -/
def sampleBelief : Belief :=
  { id := 11, user_id := 7, claim := "The earth is flat",
    confidence := 9/10, source_message_id := 12, created_at := -5,
    updated_at := -5 }

/-- A concrete happy-path conversation-mode environment: no prior
beliefs, one extracted claim, every store healthy, chat succeeds. -/
def convEnvA : ConvEnv :=
  { preBeliefs := []
    recallOutcome := .ok []
    extractOracle := .parsed [sampleClaim]
    detectReadFails := false
    detectOracle := fun _ => .parsed []
    storeBeliefFails := fun _ => false
    linkFails := fun _ => false
    memStoreUserFails := false
    finalReadFails := false
    chat := .ok "What makes you sure?"
    memStoreAsstFails := false
    metricsLogFails := false
    freshBeliefIds := fun i => 100 + i
    messageId := 50
    now := 3 }

/-- A conversation-mode environment whose belief-extraction oracle output
fails to parse, everything else healthy. -/
def convEnvB : ConvEnv :=
  { convEnvA with extractOracle := .unparseable }

/-- A concrete conversation-mode environment with one prior belief, one
extracted claim and an oracle-reported contradiction that echoes the
stored claim text verbatim. -/
def convEnvC : ConvEnv :=
  { convEnvA with
    preBeliefs := [sampleBelief]
    extractOracle := .parsed [{ claim := "The earth is round",
                                confidence := 4/5, is_explicit := true }]
    detectOracle := fun _ =>
      .parsed [{ existing_claim := "The earth is flat",
                 explanation := "shape conflict", severity := 9/10 }] }

/-- A sample oracle contradiction entry echoing `sampleBelief`'s claim
text verbatim. -/
def sampleEntry : ContradictionEntry :=
  { existing_claim := "The earth is flat", explanation := "shape conflict",
    severity := 9/10 }

/-- A concrete analysis environment: cache miss, all four layer oracles
healthy but with empty findings. -/
def analyzeEnvA : AnalyzeEnv :=
  { cacheRead := .missing
    voice := []
    noms := []
    synOracle := .parsed ⟨[], []⟩
    semOracle := .parsed ⟨[], [], [], []⟩
    disOracle := .parsed ⟨[], [], [], []⟩
    synthOracle := .parsed ⟨[], [], [], []⟩
    cacheWriteFails := false
    pgWriteFails := false
    freshId := 200
    now := 3 }

/-- A concrete happy-path integrated-mode environment. -/
def intEnvA : IntEnv :=
  { analyzeEnv := analyzeEnvA
    recallOutcome := .ok []
    extractOracle := .parsed [sampleClaim]
    preBeliefs := []
    detectReadFails := false
    detectOracle := fun _ => .parsed []
    storeBeliefFails := fun _ => false
    memStoreUserFails := false
    chat := .ok "What makes you sure?"
    memStoreAsstFails := false
    finalReadFails := false
    metricsLogFails := false
    freshBeliefIds := fun i => 100 + i
    messageId := 50
    now := 3 }

/-! ## Theorems -/

/-- The four-layer fail-fast join computes exactly the collect-all join
with per-branch default substitution: no layer analyzer can fail, each
folds its oracle failure into its empty default before the join. -/
theorem runLayers_eq_collectAll (env : AnalyzeEnv) :
    runLayers env = runLayersCollectAll env := rfl

/-- Embeds `analyze_text` never fails: it returns the cached value on a hit, and
otherwise the assembly of the four layers with defaults substituted. -/
theorem analyze_text_eq (env : AnalyzeEnv) (text : String) :
    analyze_text env text = .ok (analyzeValueOf env text) := by
  obtain ⟨cr, v, n, so, seo, dio, syo, cw, pw, fid, tnow⟩ := env
  cases cr <;> rfl

/-- The integrated-mode opening join always succeeds, with each branch
contributing its value or its documented default independently. -/
theorem integratedJoin_eq (env : IntEnv) (m : String) :
    integratedJoin env m
      = .ok (analyzeValueOf env.analyzeEnv m,
             orDefault env.recallOutcome [],
             orDefault (extract_beliefs env.extractOracle) []) := by
  unfold integratedJoin
  rw [analyze_text_eq]
  rfl

/-- Every contradiction built by the resolution loop carries as
`belief_a` a member of the stored-belief list. -/
theorem resolve_belief_a_mem (existing : List Belief)
    (entries : List ContradictionEntry) (u : Uuid) (cl : String)
    (now : Int) :
    ∀ c ∈ resolveContradictions existing entries u cl now,
      c.belief_a ∈ existing := by
  intro c hc
  obtain ⟨e, _, hfe⟩ := List.mem_filterMap.mp hc
  obtain ⟨eb, hfind, hmk⟩ := Option.map_eq_some'.mp hfe
  have hmem := List.mem_of_find?_eq_some hfind
  rw [← hmk]
  exact hmem

/-- Embeds `(l.find? p).isSome = l.any p`. -/
theorem find?_isSome_eq_any (l : List α) (p : α → Bool) :
    (l.find? p).isSome = l.any p := by
  induction l with
  | nil => rfl
  | cons a t ih => by_cases h : p a <;> simp [List.find?_cons, h, ih]

/-- Embeds `filterMap` keeps exactly the elements on which the function is
defined. -/
theorem length_filterMap_eq (l : List α) (f : α → Option β) :
    (l.filterMap f).length = (l.filter fun a => (f a).isSome).length := by
  induction l with
  | nil => rfl
  | cons a t ih =>
    cases h : f a <;> simp [List.filterMap_cons, h, ih, List.filter_cons]

/-- Every event emitted by the contradiction-link phase is a link call. -/
theorem linkEventsOf_shape (env : ConvEnv) (u : Uuid) :
    ∀ e ∈ linkEventsOf env u, ∃ a b, e = .linkCall a b := by
  intro e he
  obtain ⟨c, _, hfe⟩ := List.mem_filterMap.mp he
  obtain ⟨nb, _, hmk⟩ := Option.map_eq_some'.mp hfe
  exact ⟨c.belief_a.id, nb.id, hmk.symm⟩

/-- Every contradiction accumulated during the detection phase carries as
`belief_a` a belief that was already persisted before the turn: the
detection-phase read happens before any of this turn's writes. -/
theorem contradictionsOf_belief_a (env : ConvEnv) (u : Uuid) :
    ∀ c ∈ contradictionsOf env u, c.belief_a ∈ env.preBeliefs := by
  intro c hc
  obtain ⟨cl, _, hmem⟩ := List.mem_flatMap.mp hc
  by_cases hdr : env.detectReadFails
  · simp [detect_contradictions, detectRead, hdr, orDefault] at hmem
  · have hread : detectRead env = .ok env.preBeliefs := by
      simp [detectRead, hdr]
    rw [hread] at hmem
    cases hpre : env.preBeliefs with
    | nil =>
      rw [hpre] at hmem
      simp [detect_contradictions, orDefault] at hmem
    | cons p t =>
      rw [hpre] at hmem
      have hne : (p :: t).isEmpty = false := rfl
      simp only [detect_contradictions, hne, Bool.false_eq_true, if_false,
        orDefault] at hmem
      exact resolve_belief_a_mem _ _ _ _ _ c hmem

/-- Every belief successfully stored during the turn has a successful
store event among the turn's store events, carrying its id and claim. -/
theorem storedOf_event_mem (env : ConvEnv) (u : Uuid) :
    ∀ bf ∈ storedOf env u,
      Event.storeBeliefCall bf.id bf.claim true
        ∈ (extractedOf env).enum.map fun p =>
            Event.storeBeliefCall (env.freshBeliefIds p.1) p.2.claim
              (!env.storeBeliefFails p.1) := by
  intro bf hbf
  obtain ⟨r, hr, hok⟩ := List.mem_filterMap.mp hbf
  obtain ⟨p, hp, hsb⟩ := List.mem_map.mp hr
  by_cases hf : env.storeBeliefFails p.1
  · rw [← hsb] at hok
    simp [store_belief, hf] at hok
  · rw [← hsb] at hok
    simp only [store_belief, hf, Bool.false_eq_true, if_false] at hok
    have hbf' := Option.some.inj hok
    refine List.mem_map.mpr ⟨p, hp, ?_⟩
    rw [← hbf']
    simp [hf]

/-- A quotient clamped with `min · 1` lies in the unit interval as soon as
it is nonnegative. -/
theorem min_one_unit {x : ℚ} (hx : 0 ≤ x) : 0 ≤ min x 1 ∧ min x 1 ≤ 1 :=
  ⟨le_min hx zero_le_one, min_le_right x 1⟩

set_option maxHeartbeats 1000000 in
/-- C3: for every non-negative integer input, `compute_metrics` computes
exactly the spec's four formulas — `epistemicHumility` is
`min(1,(questionsAsked+beliefsRevised)/beliefsCount)` for positive
`beliefsCount` and `0.5` otherwise, `beliefVolatility` is
`min(1, beliefsRevised/beliefsCount)` or `0`, `contradictionAwareness` is
`min(1, contradictionsCount/(beliefsCount-1))` for `beliefsCount>1` and
`0` otherwise, `depthOfInquiry` is `min(1, questionsAsked/10)` — the
scenario-C input `(5,2,1,0)` yields `(0.2, 0, 0.5, 0.1)`, and each of the
four scalars lies in `[0,1]`. -/
theorem compute_metrics_formulas (b c q r : Nat) :
    ((computeMetricsCore b c q r).epistemic_humility
        = (if b > 0 then min (1 : ℚ) (((q : ℚ) + r) / b) else 1/2)
      ∧ (computeMetricsCore b c q r).belief_volatility
        = (if b > 0 then min (1 : ℚ) ((r : ℚ) / b) else 0)
      ∧ (computeMetricsCore b c q r).contradiction_awareness
        = (if b > 1 then min (1 : ℚ) ((c : ℚ) / ((b : ℚ) - 1)) else 0)
      ∧ (computeMetricsCore b c q r).depth_of_inquiry
        = min (1 : ℚ) ((q : ℚ) / 10))
    ∧ computeMetricsCore 5 2 1 0
        = { epistemic_humility := 1/5, belief_volatility := 0,
            contradiction_awareness := 1/2, depth_of_inquiry := 1/10 }
    ∧ ((0 ≤ (computeMetricsCore b c q r).epistemic_humility
          ∧ (computeMetricsCore b c q r).epistemic_humility ≤ 1)
      ∧ (0 ≤ (computeMetricsCore b c q r).belief_volatility
          ∧ (computeMetricsCore b c q r).belief_volatility ≤ 1)
      ∧ (0 ≤ (computeMetricsCore b c q r).contradiction_awareness
          ∧ (computeMetricsCore b c q r).contradiction_awareness ≤ 1)
      ∧ (0 ≤ (computeMetricsCore b c q r).depth_of_inquiry
          ∧ (computeMetricsCore b c q r).depth_of_inquiry ≤ 1)) := by
  refine ⟨⟨?_, ?_, ?_, ?_⟩, ?_, ?_, ?_, ?_, ?_⟩
  · simp only [computeMetricsCore]
    split <;> [rw [min_comm]; rfl]
  · simp only [computeMetricsCore]
    split <;> [rw [min_comm]; rfl]
  · simp only [computeMetricsCore]
    split <;> [rw [min_comm]; rfl]
  · simp only [computeMetricsCore]
    rw [min_comm]
  · simp only [computeMetricsCore]
    norm_num
  · simp only [computeMetricsCore]
    split
    · exact min_one_unit (div_nonneg (by positivity) (by positivity))
    · norm_num
  · simp only [computeMetricsCore]
    split
    · exact min_one_unit (div_nonneg (by positivity) (by positivity))
    · norm_num
  · simp only [computeMetricsCore]
    split
    · rename_i h
      have h1 : (1 : ℚ) < (b : ℚ) := by exact_mod_cast h
      exact min_one_unit (div_nonneg (by positivity) (by linarith))
    · norm_num
  · simp only [computeMetricsCore]
    exact min_one_unit (div_nonneg (by positivity) (by norm_num))

/-- C8 counterexample: when the InfluxDB write fails, `compute_metrics`
does *not* return the computed snapshot — it propagates the persistence
failure as an error. -/
theorem compute_metrics_persistfail_counterexample :
    compute_metrics true 5 2 1 0
      = .error "Failed to write consciousness metrics to InfluxDB" := rfl

/-- C8 amended: `compute_metrics` returns the computed four-scalar
snapshot when persistence succeeds, but a persistence failure is
propagated as an error instead of the snapshot; its orchestrator callers
discard the result (`let _ =`), so a persistence failure never changes
the value the turn returns. -/
theorem compute_metrics_persistence (b c q r : Nat) (env : ConvEnv)
    (u : Uuid) (fails : Bool) :
    compute_metrics false b c q r = .ok (computeMetricsCore b c q r)
    ∧ isError (compute_metrics true b c q r) = true
    ∧ process_message { env with metricsLogFails := fails } u
        = process_message env u := by
  refine ⟨rfl, rfl, ?_⟩
  obtain ⟨p, ro, eo, dr, dor, sf, lf, mu, fr, ch, ma, ml, fb, mi, n⟩ := env
  rfl

/-- C10: `get_user_beliefs` is total over malformed rows — a well-received
row list is always returned as `Ok`, and a row whose fields are missing or
unparseable becomes a `Belief` with defaults substituted: nil UUID for an
unparseable id or source message id, `""` for a missing claim, `0.5` for a
missing confidence, and the current time for an unparseable timestamp. -/
theorem get_user_beliefs_total (rows : List BeliefRow) (u : Uuid)
    (now : Int) (r : BeliefRow) :
    get_user_beliefs (.ok rows) u now = .ok (rows.map (rowToBelief u now))
    ∧ (r.id = none → (rowToBelief u now r).id = Uuid.nil)
    ∧ (r.claim = none → (rowToBelief u now r).claim = "")
    ∧ (r.confidence = none → (rowToBelief u now r).confidence = 1/2)
    ∧ (r.source_message_id = none →
        (rowToBelief u now r).source_message_id = Uuid.nil)
    ∧ (r.created_at = none → (rowToBelief u now r).created_at = now)
    ∧ (r.updated_at = none → (rowToBelief u now r).updated_at = now) := by
  refine ⟨rfl, ?_, ?_, ?_, ?_, ?_, ?_⟩ <;> intro h <;> simp [rowToBelief, h]

/-- C10 witness: the fully malformed row is repaired into a belief with
nil id, empty claim, confidence 1/2 and fabricated timestamps. -/
theorem get_user_beliefs_total_witness :
    (rowToBelief 7 99 ⟨none, none, none, none, none, none⟩).id = Uuid.nil
    ∧ (rowToBelief 7 99 ⟨none, none, none, none, none, none⟩).confidence
        = 1/2
    ∧ (rowToBelief 7 99 ⟨none, none, none, none, none, none⟩).created_at
        = 99 :=
  ⟨(get_user_beliefs_total [] 7 99 _).2.1 rfl,
   (get_user_beliefs_total [] 7 99 _).2.2.2.1 rfl,
   (get_user_beliefs_total [] 7 99 _).2.2.2.2.2.1 rfl⟩

/-- C6 counterexample: when the oracle's output fails to parse,
`extract_beliefs` does *not* yield the empty sequence — it propagates an
error (`.context("Failed to extract beliefs")?`). -/
theorem extract_beliefs_parsefail_counterexample :
    extract_beliefs .unparseable ≠ .ok []
    ∧ extract_beliefs .unparseable
      = .error
        "Failed to extract beliefs: Failed to parse JSON from LLM response" :=
  ⟨by simp [extract_beliefs, OracleJson.toExcept], rfl⟩

/-- C6 amended: `extract_beliefs` itself returns an error when the
oracle's output fails to parse (and when the oracle is unreachable), but
each caller immediately replaces that error with the empty sequence
(`unwrap_or_default` in conversation mode, `.or_else(|_| Ok(Vec::new()))`
in integrated mode), so a parse failure never surfaces as a hard failure
up the stack: the turn still fails exactly when the chat call fails. -/
theorem extract_beliefs_degrade_at_caller (v : List ExtractedClaim)
    (env : ConvEnv) (ienv : IntEnv) (u : Uuid) (m : String)
    (h : env.extractOracle = .unparseable) :
    extract_beliefs (.parsed v) = .ok v
    ∧ isError (extract_beliefs .unparseable) = true
    ∧ isError (extract_beliefs .unreachable) = true
    ∧ extractedOf env = []
    ∧ orDefault (extract_beliefs ienv.extractOracle) []
        = orDefault ienv.extractOracle.toExcept []
    ∧ isError (process_message env u).1 = isError env.chat := by
  refine ⟨rfl, rfl, rfl, ?_, ?_, ?_⟩
  · simp [extractedOf, h, extract_beliefs, OracleJson.toExcept, orDefault]
  · cases ienv.extractOracle <;> rfl
  · cases hc : env.chat <;> simp [process_message, hc, isError]

/-- C6 witness: with an unparseable extraction in an otherwise healthy
turn, extraction degrades to empty and the turn succeeds. -/
theorem extract_beliefs_degrade_witness :
    extractedOf convEnvB = []
    ∧ isError (process_message convEnvB 7).1 = isError convEnvB.chat :=
  ⟨(extract_beliefs_degrade_at_caller [] convEnvB intEnvA 7 "m" rfl).2.2.2.1,
   (extract_beliefs_degrade_at_caller [] convEnvB intEnvA 7 "m" rfl).2.2.2.2.2⟩

/-- C7 counterexample: a malformed cached payload is *not* treated as a
miss by `get_cached` itself — the deserialization failure is propagated as
an error to its caller. -/
theorem get_cached_malformed_counterexample :
    isError (get_cached .malformed) = true
    ∧ get_cached .malformed = .error "Failed to deserialize cached analysis" :=
  ⟨rfl, rfl⟩

/-- C7 amended: an unreachable store is folded to a miss inside
`get_cached` (`unwrap_or(None)`), while a malformed payload makes
`get_cached` return an error; its caller `analyze_text` treats that error
exactly like a miss (`if let Ok(Some(..))`), so neither failure is ever
propagated beyond the cache probe and analysis proceeds by
recomputation. -/
theorem get_cached_miss_policy (env : AnalyzeEnv) (text : String) :
    get_cached .unreachable = .ok none
    ∧ get_cached .missing = .ok none
    ∧ isError (get_cached .malformed) = true
    ∧ analyze_text { env with cacheRead := .malformed } text
        = analyze_text { env with cacheRead := .missing } text
    ∧ isError (analyze_text env text) = false := by
  refine ⟨rfl, rfl, rfl, ?_, ?_⟩
  · obtain ⟨cr, v, n, so, seo, dio, syo, cw, pw, fid, tnow⟩ := env
    rfl
  · rw [analyze_text_eq]
    rfl

/-- C1: in both orchestrators, the turn returns an error if and only if
the single reply-producing oracle chat call fails; failures of memory
recall, belief extraction, contradiction detection, belief storage,
contradiction linking, memory storage and metrics logging (all the other
outcome fields of the environment) never make the turn fail. -/
theorem turn_error_iff_chat_fails (env : ConvEnv) (ienv : IntEnv)
    (u : Uuid) (m : String) :
    (isError (process_message env u).1 = isError env.chat)
    ∧ (isError (process_integrated ienv u m) = isError ienv.chat) := by
  constructor
  · cases hc : env.chat <;> simp [process_message, hc, isError]
  · unfold process_integrated
    rw [integratedJoin_eq]
    cases hc : ienv.chat <;> simp [hc, isError]

/-- C2: both concurrent fan-outs have collect-all-with-defaults join
semantics. The four-layer join inside `analyze_text` equals the
spec-modelled collect-all join (`runLayersCollectAll`) in which every
branch independently contributes its parsed value or its empty default,
and never fails; the integrated-mode (analysis, recall, extraction)
triple always joins to the three branch values with each failed branch
replaced by its documented default (empty list / recomputed-on-miss
analysis), a failure of one branch leaving the other branches'
contributions untouched. -/
theorem fanout_collects_all_branches (env : AnalyzeEnv) (ienv : IntEnv)
    (m : String) :
    runLayers env = runLayersCollectAll env
    ∧ isError (runLayers env) = false
    ∧ integratedJoin ienv m
        = .ok (analyzeValueOf ienv.analyzeEnv m,
               orDefault ienv.recallOutcome [],
               orDefault (extract_beliefs ienv.extractOracle) []) :=
  ⟨runLayers_eq_collectAll env, rfl, integratedJoin_eq ienv m⟩

/-- C4: `detect_contradictions` short-circuits to the empty sequence —
without consulting the oracle — when the user has no stored beliefs, and
otherwise returns exactly those oracle-reported contradictions whose
`existing_claim` text is literally equal to some stored belief's claim
text: every returned contradiction pairs such a stored belief as
`belief_a` with the new claim's placeholder as `belief_b` and carries the
entry's explanation and severity, and the number of returned
contradictions is exactly the number of oracle entries with a literal
match (unmatched entries are silently dropped). -/
theorem detect_contradictions_exact (existing : List Belief)
    (entries : List ContradictionEntry)
    (o : OracleJson (List ContradictionEntry)) (u : Uuid) (cl : String)
    (now : Int) (hne : existing ≠ []) :
    detect_contradictions (.ok []) o u cl now = (.ok [], false)
    ∧ detect_contradictions (.ok existing) (.parsed entries) u cl now
        = (.ok (resolveContradictions existing entries u cl now), true)
    ∧ (∀ c ∈ resolveContradictions existing entries u cl now,
        c.belief_a ∈ existing
        ∧ ∃ e ∈ entries, c.belief_a.claim = e.existing_claim
            ∧ c.explanation = e.explanation ∧ c.severity = e.severity
            ∧ c.belief_b = mkNewClaimBelief u cl now)
    ∧ (resolveContradictions existing entries u cl now).length
        = (entries.filter fun e =>
            existing.any fun b => b.claim == e.existing_claim).length := by
  refine ⟨rfl, ?_, ?_, ?_⟩
  · have h : existing.isEmpty = false := by
      cases existing with
      | nil => exact absurd rfl hne
      | cons a t => rfl
    simp [detect_contradictions, h, orDefault, OracleJson.toExcept]
  · intro c hc
    obtain ⟨e, he, hfe⟩ := List.mem_filterMap.mp hc
    obtain ⟨eb, hfind, hmk⟩ := Option.map_eq_some'.mp hfe
    have hmem := List.mem_of_find?_eq_some hfind
    have hp := List.find?_some hfind
    have hclaim : eb.claim = e.existing_claim := beq_iff_eq.mp hp
    subst hmk
    exact ⟨hmem, e, he, hclaim, rfl, rfl, rfl⟩
  · rw [resolveContradictions, length_filterMap_eq]
    apply congrArg List.length
    apply List.filter_congr
    intro e _
    have hmap : ∀ (x : Option Belief) (f : Belief → Contradiction),
        (x.map f).isSome = x.isSome := by
      intro x f
      cases x <;> rfl
    rw [hmap]
    exact find?_isSome_eq_any _ _

/-- C4 witness: scenario B — a stored belief "The earth is flat" and an
oracle entry echoing it verbatim yield exactly one contradiction whose
`belief_a` is that stored belief. -/
theorem detect_contradictions_exact_witness :
    detect_contradictions (.ok [sampleBelief]) (.parsed [sampleEntry]) 7
        "The earth is round" 3
      = (.ok (resolveContradictions [sampleBelief] [sampleEntry] 7
          "The earth is round" 3), true)
    ∧ (resolveContradictions [sampleBelief] [sampleEntry] 7
        "The earth is round" 3).length
      = ([sampleEntry].filter fun e =>
          [sampleBelief].any fun b => b.claim == e.existing_claim).length
    ∧ (resolveContradictions [sampleBelief] [sampleEntry] 7
        "The earth is round" 3).map (fun c => c.belief_a.claim)
      = ["The earth is flat"] :=
  ⟨(detect_contradictions_exact [sampleBelief] [sampleEntry]
      (.parsed [sampleEntry]) 7 "The earth is round" 3 (by simp)).2.1,
   (detect_contradictions_exact [sampleBelief] [sampleEntry]
      (.parsed [sampleEntry]) 7 "The earth is round" 3 (by simp)).2.2.2,
   by simp [resolveContradictions, sampleBelief, sampleEntry,
        mkNewClaimBelief, List.find?]⟩

/-- C5: the call trace of every conversation-mode turn decomposes as
recall/extraction, then a block of contradiction-detection calls, then
a block of belief-store calls, then a remainder free of detection and
store calls (links, memory writes, chat, metrics): all detection
completes before any of this turn's beliefs is stored. Every link call in
the remainder has as first endpoint a belief persisted before the turn
and as second endpoint a belief this turn stored successfully (whose
store event is in the store block, before the link); and every detected
contradiction's `belief_a` is a belief persisted before the turn, so
detection observes only pre-turn state. -/
theorem conv_three_phase (env : ConvEnv) (u : Uuid) :
    ∃ detects stores rest : List Event,
      (process_message env u).2
        = [.recallCall, .extractCall] ++ detects ++ stores ++ rest
      ∧ (∀ e ∈ detects, ∃ c, e = .detectCall c)
      ∧ (∀ e ∈ stores, ∃ i cl ok, e = .storeBeliefCall i cl ok)
      ∧ (∀ e ∈ rest, (∀ c, e ≠ .detectCall c)
          ∧ (∀ i cl ok, e ≠ .storeBeliefCall i cl ok))
      ∧ (∀ a b, Event.linkCall a b ∈ rest →
          (∃ p ∈ env.preBeliefs, p.id = a)
          ∧ ∃ bf ∈ storedOf env u,
              bf.id = b ∧ Event.storeBeliefCall bf.id bf.claim true ∈ stores)
      ∧ (∀ c ∈ contradictionsOf env u, c.belief_a ∈ env.preBeliefs) := by
  refine ⟨(extractedOf env).map fun c => Event.detectCall c.claim,
    (extractedOf env).enum.map fun p =>
      Event.storeBeliefCall (env.freshBeliefIds p.1) p.2.claim
        (!env.storeBeliefFails p.1),
    linkEventsOf env u ++ [.storeMemoryCall "user", .chatCall]
      ++ (match env.chat with
          | .error _ => []
          | .ok _ => [.storeMemoryCall "assistant",
              .metricsCall
                ((existingBeliefsOf env u).length
                  + (storedOf env u).length)
                (contradictionsOf env u).length 1 0]),
    ?_, ?_, ?_, ?_, ?_, ?_⟩
  · cases hc : env.chat <;>
      simp [process_message, hc, convTracePrefix, List.append_assoc]
  · intro e he
    obtain ⟨c, -, rfl⟩ := List.mem_map.mp he
    exact ⟨c.claim, rfl⟩
  · intro e he
    obtain ⟨p, -, rfl⟩ := List.mem_map.mp he
    exact ⟨env.freshBeliefIds p.1, p.2.claim, !env.storeBeliefFails p.1, rfl⟩
  · intro e he
    rcases List.mem_append.mp he with h | h
    · rcases List.mem_append.mp h with h | h
      · obtain ⟨a, b, rfl⟩ := linkEventsOf_shape env u e h
        exact ⟨fun c => by simp, fun i cl ok => by simp⟩
      · simp only [List.mem_cons, List.mem_singleton, List.not_mem_nil,
          or_false] at h
        rcases h with rfl | rfl
        · exact ⟨fun c => by simp, fun i cl ok => by simp⟩
        · exact ⟨fun c => by simp, fun i cl ok => by simp⟩
    · cases hc : env.chat <;> rw [hc] at h <;> simp only [List.mem_cons,
        List.not_mem_nil, or_false] at h
      rcases h with rfl | rfl
      · exact ⟨fun c => by simp, fun i cl ok => by simp⟩
      · exact ⟨fun c => by simp, fun i cl ok => by simp⟩
  · intro a b hab
    rcases List.mem_append.mp hab with h | h
    · rcases List.mem_append.mp h with h | h
      · obtain ⟨contra, hcontra, hfe⟩ := List.mem_filterMap.mp h
        obtain ⟨nb, hfind, hmk⟩ := Option.map_eq_some'.mp hfe
        injection hmk with ha hb
        subst ha
        subst hb
        refine ⟨⟨contra.belief_a,
          contradictionsOf_belief_a env u contra hcontra, rfl⟩,
          nb, List.mem_of_find?_eq_some hfind, rfl,
          storedOf_event_mem env u nb (List.mem_of_find?_eq_some hfind)⟩
      · simp at h
    · cases hc : env.chat <;> rw [hc] at h <;> simp at h
  · exact contradictionsOf_belief_a env u

/-- C9 counterexample: in a turn with zero prior beliefs and one
successfully stored belief, the metrics call uses `beliefsCount = 2` —
the step-6 belief read already contains the newly stored belief and the
stored count is added on top — while prior-beliefs + newly-stored is
`0 + 1 = 1`. -/
theorem conv_metrics_count_counterexample :
    Event.metricsCall 2 0 1 0 ∈ (process_message convEnvA 7).2
    ∧ Event.metricsCall 1 0 1 0 ∉ (process_message convEnvA 7).2
    ∧ convEnvA.preBeliefs.length + (storedOf convEnvA 7).length = 1 := by
  refine ⟨?_, ?_, ?_⟩ <;> decide

/-- C9 amended: in every conversation-mode turn that produces a reply,
the final metrics call is invoked with `beliefsCount` equal to the length
of the belief list re-read *after* this turn's stores plus the number of
beliefs newly stored this turn (so, when that read succeeds, prior
beliefs plus twice the newly stored beliefs; on read failure just the
newly stored count), `contradictionsCount` the number of contradictions
detected this turn, `questionsAsked = 1` and `beliefsRevised = 0`. -/
theorem conv_metrics_args (env : ConvEnv) (u : Uuid) (r : String)
    (h : env.chat = .ok r) :
    (process_message env u).2.getLast?
      = some (.metricsCall
          ((existingBeliefsOf env u).length + (storedOf env u).length)
          (contradictionsOf env u).length 1 0)
    ∧ (env.finalReadFails = false →
        (existingBeliefsOf env u).length
          = (storedOf env u).length + env.preBeliefs.length) := by
  constructor
  · simp [process_message, h]
  · intro hf
    simp [existingBeliefsOf, hf]

/-- C9 witness: the amended metrics-argument shape at a concrete turn
with one prior belief, one extraction, one detected contradiction. -/
theorem conv_metrics_args_witness :
    (process_message convEnvC 7).2.getLast?
      = some (.metricsCall
          ((existingBeliefsOf convEnvC 7).length
            + (storedOf convEnvC 7).length)
          (contradictionsOf convEnvC 7).length 1 0)
    ∧ (existingBeliefsOf convEnvC 7).length
        = (storedOf convEnvC 7).length + convEnvC.preBeliefs.length :=
  ⟨(conv_metrics_args convEnvC 7 "What makes you sure?" rfl).1,
   (conv_metrics_args convEnvC 7 "What makes you sure?" rfl).2 rfl⟩

end Nexus
